import Mathlib

/-!
Shallow embedding of the seat-reservation core of the movie-ticket booking
backend (models Booking.js, Ticket.js, Room.js and controllers
scheduleController.js), together with theorems settling the frozen claims
about its specification.  Money amounts and times are rationals/integers;
JS `undefined`/NaN propagation is modelled with `Option` where the source
can produce it.
-/

namespace Cine

/-- Reservation status enum shared by the Booking.js and Ticket.js schemas. -/
inductive RStatus where
  | pending
  | confirmed
  | cancelled
  | refunded
  | expired
deriving DecidableEq, Repr

/-- Payment status enum of the embedded payment subdocument. -/
inductive PayStatus where
  | pending
  | completed
  | failed
  | refunded
deriving DecidableEq, Repr

/-- Seat type enum (Room.js / Booking.js / Ticket.js seat subdocuments). -/
inductive SeatType where
  | standard
  | vip
deriving DecidableEq, Repr

/-- Layout status of a room seat (Room.js seatSchema): available or maintenance. -/
inductive SeatCond where
  | available
  | maintenance
deriving DecidableEq, Repr

/-- Voucher discountType enum. -/
inductive DiscountType where
  | percent
  | fixed
deriving DecidableEq, Repr

/-- Embedded payment subdocument; only the fields the embedded operations read. -/
structure Payment where
  transactionId : Option String
  status : PayStatus
  paidAt : Option Int
deriving DecidableEq, Repr

/-- Seat line snapshotted into a reservation (Booking.js / Ticket.js `seats`). -/
structure SeatLine where
  code : String
  type : SeatType
  price : Rat
  row : Nat
  column : Nat
deriving DecidableEq, Repr

/-- Combo line of a Booking (Booking.js `combos`): the schema field is `quantity`. -/
structure ComboLine where
  name : String
  quantity : Rat
  price : Rat
deriving DecidableEq, Repr

/-- Voucher subdocument (Booking.js / Ticket.js `voucher`).  `maxDiscount` and
`minOrderValue` are optional schema paths, so they are `Option`; `discountValue`
is modelled as a rational where the JS truthiness guard `voucher.discountValue`
is the test against 0 (an absent value and 0 behave identically in every use). -/
structure Voucher where
  code : String
  discountValue : Rat
  discountType : DiscountType
  maxDiscount : Option Rat
  minOrderValue : Option Rat
deriving DecidableEq, Repr

/-- Discount computation appearing verbatim in Booking.js `calculateTotals`
(lines 213-225), Ticket.js `calculateTotals` (lines 334-345) and the Ticket.js
pricing pre-save hook: runs only when a voucher is present with truthy
`discountValue`; for `percent` the cap applies only when `maxDiscount` is
truthy (present and nonzero) and the raw discount exceeds it; for `fixed` it
is `Math.min(discountValue, subtotal)`.  `minOrderValue` is never read. -/
def calcDiscount (voucher : Option Voucher) (subtotal : Rat) : Rat :=
  match voucher with
  | none => 0
  | some v =>
    if v.discountValue ≠ 0 then
      match v.discountType with
      | DiscountType.percent =>
        let d := subtotal * v.discountValue / 100
        match v.maxDiscount with
        | some m => if m ≠ 0 ∧ d > m then m else d
        | none => d
      | DiscountType.fixed => min v.discountValue subtotal
    else 0

/-- Booking document (Booking.js schema); ids are natural numbers. -/
structure Booking where
  user : Nat
  showtime : Nat
  seats : List SeatLine
  combos : List ComboLine
  voucher : Option Voucher
  subtotal : Rat
  discount : Rat
  tax : Rat
  serviceFee : Rat
  totalAmount : Rat
  payment : Payment
  status : RStatus
  expiresAt : Int
  cancelledBy : Option Nat
  cancelledAt : Option Int
  cancellationReason : String
deriving DecidableEq, Repr

/-- Booking.js `calculateTotals` (lines 202-232): recomputes `subtotal` from the
seat and combo lines, the voucher discount, and
`totalAmount = max(0, subtotal - discount + tax + serviceFee)`.  The JS guards
`(seat.price || 0)` and `(combo.price * combo.quantity || 0)` coincide with
plain rational arithmetic, since a falsy numeric value is 0. -/
def bookingCalculateTotals (b : Booking) : Booking :=
  let seatsSubtotal := b.seats.foldl (fun s seat => s + seat.price) 0
  let combosSubtotal := b.combos.foldl (fun s c => s + c.price * c.quantity) 0
  let subtotal := seatsSubtotal + combosSubtotal
  let discount := calcDiscount b.voucher subtotal
  { b with
    subtotal := subtotal
    discount := discount
    totalAmount := max 0 (subtotal - discount + b.tax + b.serviceFee) }

/-- Combo line of a Ticket (Ticket.js `combos` in the ticket schema): the
schema declares `quantity` (and `name`, `price`); there is no `qty` path. -/
structure TicketCombo where
  name : String
  quantity : Rat
  price : Rat
deriving DecidableEq, Repr

/-- JS number that may be NaN: `none` is NaN (or an undefined operand). -/
abbrev JsNum := Option Rat

/-- JS addition with NaN propagation. -/
def jsAdd : JsNum → JsNum → JsNum
  | some a, some b => some (a + b)
  | _, _ => none

/-- JS multiplication with NaN propagation. -/
def jsMul : JsNum → JsNum → JsNum
  | some a, some b => some (a * b)
  | _, _ => none

/-- JS subtraction with NaN propagation. -/
def jsSub : JsNum → JsNum → JsNum
  | some a, some b => some (a - b)
  | _, _ => none

/-- JS division by the literal 100, with NaN propagation. -/
def jsDiv100 : JsNum → JsNum
  | some a => some (a / 100)
  | none => none

/-- JS comparison `x > m`: false when x is NaN. -/
def jsGt : JsNum → Rat → Bool
  | some a, m => decide (a > m)
  | none, _ => false

/-- JS `Math.min`: NaN when either operand is NaN. -/
def jsMin : JsNum → JsNum → JsNum
  | some a, some b => some (min a b)
  | _, _ => none

/-- Ticket document (Ticket.js schema), generic in the type of the three money
fields the pre-save hooks recompute, so that the in-flight document during a
save can carry NaN (`TicketG JsNum`) while a persisted ticket is `TicketG Rat`.
Only the fields the embedded operations read are modelled; the `showtime`
field is the ticket's reference to its schedule. -/
structure TicketG (μ : Type) where
  user : Nat
  showtime : Nat
  seats : List SeatLine
  combos : List TicketCombo
  voucher : Option Voucher
  subtotal : μ
  discount : μ
  tax : Rat
  serviceFee : Rat
  totalAmount : μ
  payment : Payment
  status : RStatus
  cancellationReason : String
  cancelledBy : Option Nat
  cancelledAt : Option Int
  pendingExpiresAt : Int
deriving DecidableEq, Repr

/-- Persisted ticket: all money fields are plain numbers. -/
abbrev Ticket := TicketG Rat

/-- In-flight ticket during a save: the recomputed money fields may be NaN. -/
abbrev TicketDraft := TicketG JsNum

/-- View of a persisted ticket as an in-flight document. -/
def ticketToDraft (t : Ticket) : TicketDraft :=
  { user := t.user, showtime := t.showtime, seats := t.seats, combos := t.combos
    voucher := t.voucher, subtotal := some t.subtotal, discount := some t.discount
    tax := t.tax, serviceFee := t.serviceFee, totalAmount := some t.totalAmount
    payment := t.payment, status := t.status
    cancellationReason := t.cancellationReason, cancelledBy := t.cancelledBy
    cancelledAt := t.cancelledAt, pendingExpiresAt := t.pendingExpiresAt }

/-- JS field access `combo.qty` performed by the Ticket.js pricing pre-save hook
(line 251): the ticket schema's combo subdocument has a `quantity` path but no
`qty` path, so the access yields `undefined`, which is NaN in arithmetic. -/
def comboQty (_ : TicketCombo) : JsNum := none

/-- Ticket.js first pre-save hook, the inline pricing path (lines 247-272):
sums seat prices and `combo.price * combo.qty` (NaN for any nonempty combo
list, since `qty` is not a schema path), applies the voucher discount with the
same truthiness guards as `calcDiscount` but in NaN arithmetic, and sets
`totalAmount = subtotal - discount` with no tax, no service fee and no
clamping at 0. -/
def ticketPricingHook (d : TicketDraft) : TicketDraft :=
  let seatTotal : JsNum := some (d.seats.foldl (fun s seat => s + seat.price) 0)
  let comboTotal : JsNum :=
    d.combos.foldl (fun s c => jsAdd s (jsMul (some c.price) (comboQty c))) (some 0)
  let subtotal := jsAdd seatTotal comboTotal
  let discount : JsNum :=
    match d.voucher with
    | none => some 0
    | some v =>
      if v.discountValue ≠ 0 then
        match v.discountType with
        | DiscountType.percent =>
          let disc := jsDiv100 (jsMul subtotal (some v.discountValue))
          match v.maxDiscount with
          | some m => if m ≠ 0 ∧ jsGt disc m then some m else disc
          | none => disc
        | DiscountType.fixed => jsMin (some v.discountValue) subtotal
      else some 0
  { d with subtotal := subtotal, discount := discount
           totalAmount := jsSub subtotal discount }

/-- Ticket.js `calculateTotals` (lines 324-354), invoked by the third pre-save
hook (lines 315-321): identical to Booking.js `calculateTotals`, overwriting
the three money fields with plain-number results, including tax, service fee
and the `Math.max(0, ...)` clamp.  The combo term reads the real `quantity`
schema field here. -/
def ticketCalculateTotals (d : TicketDraft) : TicketDraft :=
  let seatsSubtotal := d.seats.foldl (fun s seat => s + seat.price) 0
  let combosSubtotal := d.combos.foldl (fun s c => s + c.price * c.quantity) 0
  let subtotal := seatsSubtotal + combosSubtotal
  let discount := calcDiscount d.voucher subtotal
  { d with subtotal := some subtotal, discount := some discount
           totalAmount := some (max 0 (subtotal - discount + d.tax + d.serviceFee)) }

/-- Which parts of the document the current save marks as new/modified
(mongoose `isNew` / `isModified`). -/
structure SaveFlags where
  isNew : Bool
  modifiedSeats : Bool
  modifiedCombos : Bool
  modifiedVoucher : Bool
deriving DecidableEq, Repr

/-- Composition of the Ticket.js pre-save hooks in registration order: the
pricing hook at line 247 runs when the document is new or `seats`, `combos`
or `voucher` changed; the QR hook (lines 275-283) does not touch money; the
hook at line 315 runs `calculateTotals` when the document is new or `seats`
or `combos` changed (a voucher-only change does not trigger it). -/
def ticketPreSave (f : SaveFlags) (t : Ticket) : TicketDraft :=
  let d0 := ticketToDraft t
  let d1 :=
    if f.isNew || f.modifiedSeats || f.modifiedCombos || f.modifiedVoucher then
      ticketPricingHook d0
    else d0
  if f.isNew || f.modifiedSeats || f.modifiedCombos then
    ticketCalculateTotals d1
  else d1

/-- Rebuild a persisted ticket from a validated draft. -/
def ticketOfDraft (d : TicketDraft) (s disc tot : Rat) : Ticket :=
  { user := d.user, showtime := d.showtime, seats := d.seats, combos := d.combos
    voucher := d.voucher, subtotal := s, discount := disc
    tax := d.tax, serviceFee := d.serviceFee, totalAmount := tot
    payment := d.payment, status := d.status
    cancellationReason := d.cancellationReason, cancelledBy := d.cancelledBy
    cancelledAt := d.cancelledAt, pendingExpiresAt := d.pendingExpiresAt }

/-- Mongoose save of a ticket: run the pre-save hooks, then the schema
validators on the recomputed money fields (`subtotal`, `discount`,
`totalAmount` each carry a min-0 validator; `value >= 0` is false for NaN,
so a NaN result fails validation and nothing is persisted). -/
def ticketSave (f : SaveFlags) (t : Ticket) : Option Ticket :=
  let d := ticketPreSave f t
  match d.subtotal, d.discount, d.totalAmount with
  | some s, some disc, some tot =>
    if 0 ≤ s ∧ 0 ≤ disc ∧ 0 ≤ tot then some (ticketOfDraft d s disc tot) else none
  | _, _, _ => none

/-- Booking.js `cancel` method (lines 235-252): throws only when the booking is
already `cancelled`; when the booking is `confirmed` with a `completed`
payment it marks the payment `refunded`; in every non-throwing case it sets
status to `cancelled` and records who, when and why. -/
def bookingCancel (b : Booking) (userId : Nat) (reason : String) (now : Int) :
    Except String Booking :=
  if b.status = RStatus.cancelled then
    Except.error "Booking is already cancelled"
  else
    let pay :=
      if b.status = RStatus.confirmed ∧ b.payment.status = PayStatus.completed then
        { b.payment with status := PayStatus.refunded }
      else b.payment
    Except.ok
      { b with payment := pay, status := RStatus.cancelled
               cancelledBy := some userId, cancelledAt := some now
               cancellationReason := reason }

/-- Ticket.js `cancel` method (lines 357-375): throws only when the ticket is
already `cancelled`; otherwise sets status to `cancelled` and records who,
when and why.  It never touches the payment subdocument (no refund marking). -/
def ticketCancel (t : Ticket) (userId : Nat) (reason : String) (now : Int) :
    Except String Ticket :=
  if t.status = RStatus.cancelled then
    Except.error "Ticket is already cancelled"
  else
    Except.ok
      { t with status := RStatus.cancelled, cancellationReason := reason
               cancelledBy := some userId, cancelledAt := some now }

/-- Schedule document as used by scheduleController.js: times are epoch
milliseconds; `isActive` is the activation flag the PUT route may toggle
(the Schedule model file itself is not part of the sources, but every field
here is read or written by the controller). -/
structure Schedule where
  id : Nat
  movie : Nat
  theater : Nat
  room : Nat
  startTime : Int
  endTime : Int
  price : Rat
  isActive : Bool
deriving DecidableEq, Repr

/-- Overlap predicate of the conflict queries in scheduleController.js
(lines 49-54 and 239-245): same room, `startTime < end` and `endTime > start`
(half-open interval overlap, strict on both sides).  No `isActive` condition
appears in either query. -/
def scheduleOverlapsB (roomId : Nat) (startT endT : Int) (s : Schedule) : Bool :=
  s.room == roomId && decide (s.startTime < endT) && decide (s.endTime > startT)

/-- Catalog state consulted by `createSchedule`: movie ids, theater ids, room
ids paired with their theater (Room.findOne matches `_id` and `theater`), and
the existing schedules. -/
structure CatalogDb where
  movies : List Nat
  theaters : List Nat
  rooms : List (Nat × Nat)
  schedules : List Schedule
deriving DecidableEq, Repr

/-- Outcome of the createSchedule HTTP handler. -/
inductive CreateResult where
  | notFound (what : String)
  | conflict
  | created (s : Schedule)
deriving DecidableEq, Repr

/-- scheduleController.js `createSchedule` (lines 11-95): 404 when the movie,
the theater, or a room with that id inside that theater is missing; then the
conflict query `Schedule.findOne({room, startTime: {$lt: end}, endTime:
{$gt: start}})` over all schedules of the room, active or not; 400
(ConflictError) when it matches, otherwise the schedule is persisted. -/
def createSchedule (db : CatalogDb) (movieId theaterId roomId : Nat)
    (startT endT : Int) (price : Rat) (newId : Nat) : CreateResult :=
  if ¬ db.movies.contains movieId then CreateResult.notFound "Movie not found"
  else if ¬ db.theaters.contains theaterId then CreateResult.notFound "Theater not found"
  else if ¬ db.rooms.contains (roomId, theaterId) then
    CreateResult.notFound "Room not found in this theater"
  else if db.schedules.any (scheduleOverlapsB roomId startT endT) then
    CreateResult.conflict
  else
    CreateResult.created
      { id := newId, movie := movieId, theater := theaterId, room := roomId
        startTime := startT, endTime := endT, price := price, isActive := true }

/-- Patch body of the updateSchedule PUT route; `none` models an absent field. -/
structure SchedulePatch where
  startTime : Option Int
  endTime : Option Int
  roomId : Option Nat
  price : Option Rat
  isActive : Option Bool
deriving DecidableEq, Repr

/-- Outcome of the updateSchedule HTTP handler. -/
inductive UpdateResult where
  | notFound
  | conflict
  | updated (s : Schedule)
deriving DecidableEq, Repr

/-- scheduleController.js `updateSchedule` (lines 217-286): 404 when the id is
unknown; when the patch carries `startTime`, `endTime` or `roomId` it re-runs
the overlap query with the patched values against all schedules of the target
room except the schedule itself (no `isActive` filter), answering 400
(ConflictError) on a match; otherwise it applies the allowed updates --
`roomId` is not in `allowedUpdates`, so a room change is checked but never
applied. -/
def updateSchedule (schedules : List Schedule) (id : Nat) (p : SchedulePatch) :
    UpdateResult :=
  match schedules.find? (fun s => s.id == id) with
  | none => UpdateResult.notFound
  | some sch =>
    let checkNeeded := p.startTime.isSome || p.endTime.isSome || p.roomId.isSome
    let startT := p.startTime.getD sch.startTime
    let endT := p.endTime.getD sch.endTime
    let room := p.roomId.getD sch.room
    if checkNeeded &&
        schedules.any (fun s => s.id != id && scheduleOverlapsB room startT endT s) then
      UpdateResult.conflict
    else
      UpdateResult.updated
        { sch with
          startTime := p.startTime.getD sch.startTime
          endTime := p.endTime.getD sch.endTime
          price := p.price.getD sch.price
          isActive := p.isActive.getD sch.isActive }

/-- Outcome of the deleteSchedule HTTP handler. -/
inductive DeleteResult where
  | notFound
  | conflict
  | deleted
  | serverError
deriving DecidableEq, Repr

/-- scheduleController.js `deleteSchedule` (lines 291-331): 404 when the id is
unknown.  After the found-check the handler evaluates
`Booking.countDocuments({schedule: ...})`, but scheduleController.js never
imports `Booking` (only Schedule, Movie, Theater and Room are required at the
top of the file), so the identifier lookup throws a ReferenceError, the
catch-all answers the 500 server-error response, and neither the deletion nor
the 400 conflict branch is ever reached: the outcome is independent of the
booking collection (second argument), and the schedule list (second result
component) is returned unchanged.  Were the import present, the guard would
still not match the claim: the query filters on a `schedule` path absent
from the booking schema (whose reference field is `showtime`) and carries no
status filter at all. -/
def deleteSchedule (schedules : List Schedule) (_bookings : List Booking) (id : Nat) :
    DeleteResult × List Schedule :=
  match schedules.find? (fun s => s.id == id) with
  | none => (DeleteResult.notFound, schedules)
  | some _ => (DeleteResult.serverError, schedules)

/-- Seat of a room layout (Room.js seatSchema). -/
structure RoomSeat where
  code : String
  type : SeatType
  status : SeatCond
  row : Nat
  column : Nat
deriving DecidableEq, Repr

/-- Showtime with its populated room layout and the bookings referencing it,
as assembled by the populate calls of Booking.js `getAvailableSeats`. -/
structure AvState where
  roomSeats : List RoomSeat
  bookings : List Booking
deriving Repr

/-- Booking.js `getAvailableSeats` (lines 346-375): the populate `match` keeps
bookings with status in `[confirmed, pending]` whose `payment.status` is not
`refunded`; their seat codes are unioned; each room seat is then reported
with `isAvailable = code not in the union AND seat.status === available`.
Nothing reads `expiresAt`: a lapsed pending booking still blocks its seats
until the TTL index deletes the document. -/
def getAvailableSeats (st : AvState) : List (RoomSeat × Bool) :=
  let kept := st.bookings.filter (fun b =>
    (b.status == RStatus.confirmed || b.status == RStatus.pending) &&
      b.payment.status != PayStatus.refunded)
  let bookedCodes := (kept.map (fun b => b.seats.map (fun s => s.code))).flatten
  st.roomSeats.map (fun seat =>
    (seat, !(bookedCodes.contains seat.code) && seat.status == SeatCond.available))

/-- Availability as claim C7 words it: a seat is free unless some reservation
on the schedule with status pending or confirmed contains its code, where a
pending reservation whose `expiresAt` is already past (relative to `now`)
counts as free even if not yet swept. -/
def claimSeatFree (now : Int) (st : AvState) (code : String) : Bool :=
  !(st.bookings.any (fun b =>
    (b.status == RStatus.confirmed ||
      (b.status == RStatus.pending && decide (now < b.expiresAt))) &&
    b.seats.any (fun s => s.code == code)))

/-- Seat codes a ticket carries. -/
def ticketSeatCodes (t : Ticket) : List String := t.seats.map (fun s => s.code)

/-- Key clash under the unique index DECLARED in Ticket.js (lines 231-240):
the declaration is on `(scheduleId, seats.code)` with
`partialFilterExpression: {status: {$ne: cancelled}}`.  Two documents clash
when both are in the declared scope (status not `cancelled`) and share a seat
code (the ticket schema has no `scheduleId` path, so that key component would
be null on every document).  The declaration, however, never takes effect:
MongoDB does not accept `$ne` inside a partialFilterExpression, so creation
of this index fails and the running program has no uniqueness constraint on
seats at all -- this predicate records only what the declaration promises. -/
def indexClash (t1 t2 : Ticket) : Prop :=
  t1.status ≠ RStatus.cancelled ∧ t2.status ≠ RStatus.cancelled ∧
    ∃ c, c ∈ ticketSeatCodes t1 ∧ c ∈ ticketSeatCodes t2

/-- One storage step on the Ticket collection.  Inserts are unguarded: the
unique index declared in Ticket.js (lines 231-240) is rejected by MongoDB at
creation time because its partialFilterExpression uses the unsupported `$ne`
operator, so no uniqueness constraint exists at runtime and every insert is
accepted.  The `cancel` method rewrites one document through `ticketCancel`
(its error case changes nothing, so no step is needed for it).  The TTL
indexes (`pendingExpiresAt` and `createdAt`) delete documents. -/
inductive TicketStep : List Ticket → List Ticket → Prop where
  | insert (t : Ticket) (ts : List Ticket) : TicketStep ts (t :: ts)
  | cancelOp (l1 l2 : List Ticket) (t t2 : Ticket) (u : Nat) (r : String) (now : Int) :
      ticketCancel t u r now = Except.ok t2 →
      TicketStep (l1 ++ t :: l2) (l1 ++ t2 :: l2)
  | ttlDelete (l1 l2 : List Ticket) (t : Ticket) :
      TicketStep (l1 ++ t :: l2) (l1 ++ l2)

/-- States of the Ticket collection reachable from empty through the storage
steps. -/
inductive TicketReachable : List Ticket → Prop where
  | init : TicketReachable []
  | step {s s2 : List Ticket} :
      TicketReachable s → TicketStep s s2 → TicketReachable s2

/-- A reservation is active in the sense of claim C1: neither cancelled nor
expired. -/
def activeStatus (t : Ticket) : Bool :=
  t.status != RStatus.cancelled && t.status != RStatus.expired

/-- Alphabet string used by Room.js `generateSeatMap` (line 104). -/
def alphabet : List Char := "ABCDEFGHIJKLMNOPQRSTUVWXYZ".toList

/-- Row letter of a seat row: `alphabet[row % alphabet.length]`. -/
def rowLetter (row : Nat) : Char := alphabet.getD (row % alphabet.length) 'A'

/-- Decimal rendering of a column number, as the JS template literal prints a
nonnegative integer. -/
def natChars (n : Nat) : List Char :=
  if n = 0 then ['0'] else (Nat.digits 10 n).reverse.map Nat.digitChar

/-- Seat code built by `generateSeatMap`: row letter followed by the decimal
column number (template literal on line 115 of Room.js). -/
def seatCode (row col : Nat) : String := String.mk (rowLetter row :: natChars col)

/-- Room.js `generateSeatMap` (lines 102-125): rows indexed from 0, columns
from 1 to `seatsPerRow`; the first `vipRows = 2` rows are vip; every seat
starts `available`; the stored `column` is `col - 1`. -/
def generateSeatMap (rows seatsPerRow : Nat) : List RoomSeat :=
  (List.range rows).flatMap (fun row =>
    (List.range seatsPerRow).map (fun i =>
      { code := seatCode row (i + 1)
        type := if row < 2 then SeatType.vip else SeatType.standard
        status := SeatCond.available
        row := row
        column := i }))

/-- Room document fields touched by the Room.js pre-save hook. -/
structure RoomDoc where
  capacity : Nat
  rows : Nat
  seatsPerRow : Nat
  seats : List RoomSeat
deriving Repr

/-- Room.js pre-save hook (lines 93-99): on a new room, or when `rows` or
`seatsPerRow` changed, regenerates the seat map and sets
`capacity = rows * seatsPerRow`. -/
def roomPreSave (isNew modifiedDims : Bool) (r : RoomDoc) : RoomDoc :=
  if isNew || modifiedDims then
    { r with seats := generateSeatMap r.rows r.seatsPerRow
             capacity := r.rows * r.seatsPerRow }
  else r

/-- Discount formula exactly as claim C3 words it: percent vouchers are capped
by `maxDiscount` whenever it is given, fixed vouchers by the subtotal. -/
def claimDiscountC3 (v : Voucher) (subtotal : Rat) : Rat :=
  match v.discountType with
  | DiscountType.percent =>
    match v.maxDiscount with
    | some m => min (subtotal * v.discountValue / 100) m
    | none => subtotal * v.discountValue / 100
  | DiscountType.fixed => min v.discountValue subtotal

/-- Discount formula of the amended claim C3: as `claimDiscountC3`, except that
a given `maxDiscount` of 0 is ignored (the source guards the cap with JS
truthiness, so a zero cap behaves like an absent one). -/
def amendedDiscountC3 (v : Voucher) (subtotal : Rat) : Rat :=
  match v.discountType with
  | DiscountType.percent =>
    match v.maxDiscount with
    | some m =>
      if m ≠ 0 then min (subtotal * v.discountValue / 100) m
      else subtotal * v.discountValue / 100
    | none => subtotal * v.discountValue / 100
  | DiscountType.fixed => min v.discountValue subtotal

/-- Percent voucher of the C3 scenario: value 10, maxDiscount 50000. -/
def save10 : Voucher :=
  { code := "SAVE10", discountValue := 10, discountType := DiscountType.percent
    maxDiscount := some 50000, minOrderValue := none }

/-- Percent voucher with a given but zero maxDiscount. -/
def vZeroCap : Voucher :=
  { code := "ZCAP", discountValue := 10, discountType := DiscountType.percent
    maxDiscount := some 0, minOrderValue := none }

/-- Fixed voucher of value 50 with a 1000 minimum order value. -/
def voucherMin : Voucher :=
  { code := "MIN1000", discountValue := 50, discountType := DiscountType.fixed
    maxDiscount := none, minOrderValue := some 1000 }

/-- Payment subdocument still pending. -/
def payPending : Payment :=
  { transactionId := none, status := PayStatus.pending, paidAt := none }

/-- Seat line for seat A1 at price 100. -/
def seatA1 : SeatLine :=
  { code := "A1", type := SeatType.standard, price := 100, row := 0, column := 0 }

/-- Booking whose subtotal (100) is below its voucher's minOrderValue (1000). -/
def bookingBelowMin : Booking :=
  { user := 1, showtime := 1, seats := [seatA1], combos := []
    voucher := some voucherMin, subtotal := 100, discount := 0, tax := 0
    serviceFee := 0, totalAmount := 100, payment := payPending
    status := RStatus.pending, expiresAt := 0, cancelledBy := none
    cancelledAt := none, cancellationReason := "" }

/-- Booking in the terminal state `expired`. -/
def bookingExpired : Booking :=
  { user := 1, showtime := 1, seats := [seatA1], combos := [], voucher := none
    subtotal := 100, discount := 0, tax := 0, serviceFee := 0
    totalAmount := 100, payment := payPending, status := RStatus.expired
    expiresAt := 50, cancelledBy := none, cancelledAt := none
    cancellationReason := "" }

/-- Ticket in the terminal state `refunded`. -/
def ticketRefunded : Ticket :=
  { user := 1, showtime := 1, seats := [seatA1], combos := [], voucher := none
    subtotal := 100, discount := 0, tax := 0, serviceFee := 0
    totalAmount := 100
    payment := { transactionId := some "tx1", status := PayStatus.refunded, paidAt := some 10 }
    status := RStatus.refunded, cancellationReason := "", cancelledBy := none
    cancelledAt := none, pendingExpiresAt := 50 }

/-- Persisted ticket with one 100000 seat, tax 10000 and service fee 5000,
previously saved with consistent totals. -/
def ticketTaxed : Ticket :=
  { user := 1, showtime := 1
    seats := [{ code := "A1", type := SeatType.standard, price := 100000, row := 0, column := 0 }]
    combos := [], voucher := none, subtotal := 100000, discount := 0
    tax := 10000, serviceFee := 5000, totalAmount := 115000
    payment := payPending, status := RStatus.pending, cancellationReason := ""
    cancelledBy := none, cancelledAt := none, pendingExpiresAt := 0 }

/-- Booking carrying the same seat/combo/voucher/tax/fee snapshot as
`ticketTaxed`. -/
def bookingTaxed : Booking :=
  { user := 1, showtime := 1
    seats := [{ code := "A1", type := SeatType.standard, price := 100000, row := 0, column := 0 }]
    combos := [], voucher := none, subtotal := 100000, discount := 0
    tax := 10000, serviceFee := 5000, totalAmount := 115000
    payment := payPending, status := RStatus.pending, expiresAt := 0
    cancelledBy := none, cancelledAt := none, cancellationReason := "" }

/-- Save of an existing document where only the voucher subdocument changed. -/
def voucherOnlyFlags : SaveFlags :=
  { isNew := false, modifiedSeats := false, modifiedCombos := false
    modifiedVoucher := true }

/-- A schedule in room 1 from minute 600 to minute 720. -/
def sched600 : Schedule :=
  { id := 1, movie := 1, theater := 1, room := 1, startTime := 600
    endTime := 720, price := 90000, isActive := true }

/-- An inactive (deactivated) schedule in room 1 from minute 600 to 720. -/
def schedInactive : Schedule :=
  { id := 2, movie := 1, theater := 1, room := 1, startTime := 600
    endTime := 720, price := 90000, isActive := false }

/-- Catalog whose only schedule in room 1 is the inactive one. -/
def dbInactive : CatalogDb :=
  { movies := [1], theaters := [1], rooms := [(1, 1)], schedules := [schedInactive] }

/-- Catalog with no schedules at all. -/
def dbEmpty : CatalogDb :=
  { movies := [1], theaters := [1], rooms := [(1, 1)], schedules := [] }

/-- Active schedule (id 1) in room 1, minute 0 to 100. -/
def schedA : Schedule :=
  { id := 1, movie := 1, theater := 1, room := 1, startTime := 0
    endTime := 100, price := 0, isActive := true }

/-- Inactive schedule (id 2) in room 1, minute 50 to 150, overlapping schedA. -/
def schedB : Schedule :=
  { id := 2, movie := 1, theater := 1, room := 1, startTime := 50
    endTime := 150, price := 0, isActive := false }

/-- Patch that re-sends startTime 0 and touches nothing else. -/
def patchStart0 : SchedulePatch :=
  { startTime := some 0, endTime := none, roomId := none, price := none
    isActive := none }

/-- Patch that only changes the price. -/
def patchPrice : SchedulePatch :=
  { startTime := none, endTime := none, roomId := none, price := some 120000
    isActive := none }

/-- Room layout seat A1, available. -/
def roomSeatA1 : RoomSeat :=
  { code := "A1", type := SeatType.standard, status := SeatCond.available
    row := 0, column := 0 }

/-- Pending booking holding seat A1 whose hold lapsed at time 50. -/
def bookingLapsed : Booking :=
  { user := 1, showtime := 1, seats := [seatA1], combos := [], voucher := none
    subtotal := 100, discount := 0, tax := 0, serviceFee := 0
    totalAmount := 100, payment := payPending, status := RStatus.pending
    expiresAt := 50, cancelledBy := none, cancelledAt := none
    cancellationReason := "" }

/-- Showtime state: one-seat room, one lapsed pending booking on A1. -/
def stLapsed : AvState :=
  { roomSeats := [roomSeatA1], bookings := [bookingLapsed] }

/-- Pending ticket holding seat A1 on showtime 5. -/
def ticketA1 : Ticket :=
  { user := 1, showtime := 5, seats := [seatA1], combos := [], voucher := none
    subtotal := 100, discount := 0, tax := 0, serviceFee := 0
    totalAmount := 100, payment := payPending, status := RStatus.pending
    cancellationReason := "", cancelledBy := none, cancelledAt := none
    pendingExpiresAt := 50 }

/-- A second user's pending ticket holding the same seat A1 on the same
showtime 5. -/
def ticketA1rival : Ticket :=
  { user := 2, showtime := 5, seats := [seatA1], combos := [], voucher := none
    subtotal := 100, discount := 0, tax := 0, serviceFee := 0
    totalAmount := 100, payment := payPending, status := RStatus.pending
    cancellationReason := "", cancelledBy := none, cancelledAt := none
    pendingExpiresAt := 50 }

/-! ## Theorems -/

/-- C3 counterexample: the claim's formula caps a percent discount by any
given `maxDiscount`, but the source guards the cap with JS truthiness, so a
voucher carrying `maxDiscount = 0` is not capped: on subtotal 1000 the code
yields 100 where the claim's formula yields min(100, 0) = 0. -/
theorem calcDiscount_zero_cap_counterexample :
    vZeroCap.maxDiscount = some 0 ∧
    calcDiscount (some vZeroCap) 1000 = 100 ∧
    claimDiscountC3 vZeroCap 1000 = 0 ∧ (100 : Rat) ≠ 0 := by
  refine ⟨rfl, ?_, ?_, by norm_num⟩
  · norm_num [calcDiscount, vZeroCap]
  · norm_num [claimDiscountC3, vZeroCap]

/-- C3 amended: for a nonnegative subtotal and a voucher with nonnegative cap,
the discount computed by the pricing paths is: for percent vouchers
min(subtotal*value/100, maxDiscount) when maxDiscount is given and nonzero
(a zero or absent cap leaves the percentage uncapped), and for fixed vouchers
min(value, subtotal). -/
theorem calcDiscount_eq_amended (v : Voucher) (s : Rat) (hs : 0 ≤ s)
    (hm : ∀ m, v.maxDiscount = some m → 0 ≤ m) :
    calcDiscount (some v) s = amendedDiscountC3 v s := by
  obtain ⟨code, dv, dt, cap, minv⟩ := v
  cases dt <;> rcases cap with _ | m
  · by_cases hdv : dv = 0 <;>
      simp [calcDiscount, amendedDiscountC3, hdv]
  · have h0m : 0 ≤ m := hm m rfl
    by_cases hdv : dv = 0
    · by_cases hm0 : m = 0 <;>
        simp [calcDiscount, amendedDiscountC3, hdv, hm0, min_eq_left h0m]
    · by_cases hm0 : m = 0
      · simp [calcDiscount, amendedDiscountC3, hdv, hm0]
      · rcases le_or_lt (s * dv / 100) m with hle | hlt
        · simp [calcDiscount, amendedDiscountC3, hdv, hm0, not_lt.mpr hle,
            min_eq_left hle]
        · simp [calcDiscount, amendedDiscountC3, hdv, hm0, hlt,
            min_eq_right hlt.le]
  · by_cases hdv : dv = 0 <;>
      simp [calcDiscount, amendedDiscountC3, hdv, min_eq_left hs]
  · by_cases hdv : dv = 0 <;>
      simp [calcDiscount, amendedDiscountC3, hdv, min_eq_left hs]

/-- C3 witness: the amended formula applied to the SAVE10 scenario -- percent
value 10, maxDiscount 50000, subtotal 1,000,000 -- gives discount 50000. -/
theorem calcDiscount_eq_amended_witness :
    (0 : Rat) ≤ 1000000 ∧
    calcDiscount (some save10) 1000000 = amendedDiscountC3 save10 1000000 ∧
    calcDiscount (some save10) 1000000 = 50000 := by
  have h := calcDiscount_eq_amended save10 1000000 (by norm_num)
    (fun m hmem => by
      have : (50000 : Rat) = m := by
        simpa [save10] using hmem
      rw [← this]; norm_num)
  exact ⟨by norm_num, h, by norm_num [calcDiscount, save10]⟩

/-- C4 counterexample: a booking whose subtotal 100 is below its voucher's
minOrderValue 1000 still gets the fixed discount 50 applied by
`calculateTotals`; no failure occurs and the voucher is silently applied. -/
theorem minOrderValue_not_enforced_counterexample :
    voucherMin.minOrderValue = some 1000 ∧
    (bookingCalculateTotals bookingBelowMin).subtotal = 100 ∧
    (100 : Rat) < 1000 ∧
    (bookingCalculateTotals bookingBelowMin).discount = 50 ∧
    (bookingCalculateTotals bookingBelowMin).totalAmount = 50 := by
  refine ⟨rfl, ?_, by norm_num, ?_, ?_⟩ <;>
    norm_num [bookingCalculateTotals, bookingBelowMin, calcDiscount, voucherMin,
      seatA1]

/-- C4 amended: the pricing paths never read `minOrderValue`: the voucher
discount and every total computed by `calculateTotals` are unchanged under
any replacement of the voucher's `minOrderValue`, so a voucher below its
minimum order value is silently applied in full rather than rejected. -/
theorem minOrderValue_ignored (v : Voucher) (s : Rat) (m1 m2 : Option Rat)
    (b : Booking) :
    calcDiscount (some { v with minOrderValue := m1 }) s =
      calcDiscount (some { v with minOrderValue := m2 }) s ∧
    (bookingCalculateTotals { b with voucher := some { v with minOrderValue := m1 } }).discount =
      (bookingCalculateTotals { b with voucher := some { v with minOrderValue := m2 } }).discount ∧
    (bookingCalculateTotals { b with voucher := some { v with minOrderValue := m1 } }).totalAmount =
      (bookingCalculateTotals { b with voucher := some { v with minOrderValue := m2 } }).totalAmount := by
  exact ⟨rfl, rfl, rfl⟩

/-- C6 counterexample: `cancel` succeeds from the terminal states -- the
expired booking and the refunded ticket are both moved to `cancelled` rather
than rejected, so the states `expired` and `refunded` are not terminal under
the implemented `cancel`. -/
theorem cancel_leaves_terminal_counterexample :
    bookingExpired.status = RStatus.expired ∧
    bookingCancel bookingExpired 7 "late" 0 =
      Except.ok { bookingExpired with
                  status := RStatus.cancelled,
                  cancelledBy := some 7, cancelledAt := some 0,
                  cancellationReason := "late" } ∧
    ticketRefunded.status = RStatus.refunded ∧
    ticketCancel ticketRefunded 7 "late" 0 =
      Except.ok { ticketRefunded with
                  status := RStatus.cancelled,
                  cancellationReason := "late", cancelledBy := some 7,
                  cancelledAt := some 0 } := by
  refine ⟨rfl, ?_, rfl, ?_⟩ <;> rfl

/-- C6 amended: `cancel` fails only when the reservation is already
`cancelled`; from every other status -- pending, confirmed, refunded or
expired -- it succeeds and moves the reservation to `cancelled`, so
`cancelled` is the only status terminal under `cancel`.  Booking.cancel marks
the payment refunded exactly when the booking was confirmed with a completed
payment; Ticket.cancel never touches the payment. -/
theorem cancel_only_guards_cancelled (b : Booking) (t : Ticket) (u : Nat)
    (r : String) (now : Int)
    (hb : b.status ≠ RStatus.cancelled) (ht : t.status ≠ RStatus.cancelled) :
    (∃ b2, bookingCancel b u r now = Except.ok b2 ∧
      b2.status = RStatus.cancelled ∧
      b2.payment.status =
        (if b.status = RStatus.confirmed ∧ b.payment.status = PayStatus.completed
          then PayStatus.refunded else b.payment.status)) ∧
    (∃ t2, ticketCancel t u r now = Except.ok t2 ∧
      t2.status = RStatus.cancelled ∧ t2.payment = t.payment) ∧
    (∀ b0 : Booking, b0.status = RStatus.cancelled →
      bookingCancel b0 u r now = Except.error "Booking is already cancelled") ∧
    (∀ t0 : Ticket, t0.status = RStatus.cancelled →
      ticketCancel t0 u r now = Except.error "Ticket is already cancelled") := by
  have hbk : bookingCancel b u r now =
      Except.ok { b with
                  payment :=
                    (if b.status = RStatus.confirmed ∧
                        b.payment.status = PayStatus.completed
                      then { b.payment with status := PayStatus.refunded }
                      else b.payment),
                  status := RStatus.cancelled, cancelledBy := some u,
                  cancelledAt := some now, cancellationReason := r } := by
    unfold bookingCancel
    rw [if_neg hb]
  have htk : ticketCancel t u r now =
      Except.ok { t with
                  status := RStatus.cancelled, cancellationReason := r,
                  cancelledBy := some u, cancelledAt := some now } := by
    unfold ticketCancel
    rw [if_neg ht]
  refine ⟨⟨_, hbk, rfl, ?_⟩, ⟨_, htk, rfl, rfl⟩, ?_, ?_⟩
  · by_cases hc : b.status = RStatus.confirmed ∧ b.payment.status = PayStatus.completed <;>
      simp [hc]
  · intro b0 h0; simp [bookingCancel, h0]
  · intro t0 h0; simp [ticketCancel, h0]

/-- C6 witness: the amended cancel characterisation at the concrete expired
booking and refunded ticket. -/
theorem cancel_only_guards_cancelled_witness :
    (∃ b2, bookingCancel bookingExpired 7 "w" 0 = Except.ok b2 ∧
      b2.status = RStatus.cancelled ∧
      b2.payment.status =
        (if bookingExpired.status = RStatus.confirmed ∧
            bookingExpired.payment.status = PayStatus.completed
          then PayStatus.refunded else bookingExpired.payment.status)) ∧
    (∃ t2, ticketCancel ticketRefunded 7 "w" 0 = Except.ok t2 ∧
      t2.status = RStatus.cancelled ∧ t2.payment = ticketRefunded.payment) ∧
    (∀ b0 : Booking, b0.status = RStatus.cancelled →
      bookingCancel b0 7 "w" 0 = Except.error "Booking is already cancelled") ∧
    (∀ t0 : Ticket, t0.status = RStatus.cancelled →
      ticketCancel t0 7 "w" 0 = Except.error "Ticket is already cancelled") :=
  cancel_only_guards_cancelled bookingExpired ticketRefunded 7 "w" 0
    (by decide) (by decide)

/-- C2 evidence: on the same snapshot (one 100000 seat, no combos, no voucher,
tax 10000, service fee 5000) the Ticket pricing pre-save hook persists
totalAmount = subtotal - discount = 100000 (a voucher-only modification does
not trigger the calculateTotals hook), while the consolidated
`totalAmount = max(0, subtotal - discount + tax + serviceFee)` -- as computed
by both Booking.calculateTotals and Ticket.calculateTotals -- is 115000. -/
theorem ticket_pricing_hook_divergence :
    (ticketSave voucherOnlyFlags ticketTaxed).map (fun r => r.totalAmount) =
      some 100000 ∧
    (ticketSave voucherOnlyFlags ticketTaxed).map
        (fun r => max 0 (r.subtotal - r.discount + r.tax + r.serviceFee)) =
      some 115000 ∧
    (ticketCalculateTotals (ticketToDraft ticketTaxed)).totalAmount =
      some 115000 ∧
    (bookingCalculateTotals bookingTaxed).totalAmount = 115000 ∧
    (100000 : Rat) ≠ 115000 := by
  refine ⟨?_, ?_, ?_, ?_, by norm_num⟩ <;>
    norm_num [ticketSave, ticketPreSave, ticketPricingHook, ticketToDraft,
      ticketOfDraft, ticketCalculateTotals, calcDiscount, jsAdd, jsSub, jsMul,
      comboQty, voucherOnlyFlags, ticketTaxed, bookingCalculateTotals,
      bookingTaxed]

/-- C8 evidence: deleteSchedule on an existing schedule answers the 500
server-error outcome and leaves the schedule list unchanged, independently of
the booking collection -- with no bookings at all it still does not delete,
and with a booking present it still does not answer the conflict outcome --
because scheduleController.js evaluates `Booking.countDocuments` without ever
importing `Booking`. -/
theorem deleteSchedule_always_errors :
    deleteSchedule [sched600] [] 1 = (DeleteResult.serverError, [sched600]) ∧
    deleteSchedule [sched600] [bookingLapsed] 1 =
      (DeleteResult.serverError, [sched600]) ∧
    DeleteResult.serverError ≠ DeleteResult.deleted ∧
    DeleteResult.serverError ≠ DeleteResult.conflict := by
  exact ⟨rfl, rfl, by decide, by decide⟩

/-- Bridge between the executable overlap test and its propositional form. -/
theorem scheduleOverlapsB_iff (roomId : Nat) (startT endT : Int) (s : Schedule) :
    scheduleOverlapsB roomId startT endT s = true ↔
      s.room = roomId ∧ s.startTime < endT ∧ s.endTime > startT := by
  simp [scheduleOverlapsB, and_assoc]

/-- C5 counterexample: an overlapping but inactive schedule in the room makes
`createSchedule` answer the conflict outcome, although no active schedule
overlaps the requested 660-780 slot -- the conflict query has no isActive
filter, so deactivated schedules also block creation, contrary to the claim
that the operation succeeds whenever no active schedule overlaps. -/
theorem createSchedule_inactive_counterexample :
    createSchedule dbInactive 1 1 1 660 780 90000 9 = CreateResult.conflict ∧
    (dbInactive.schedules.any fun s =>
      s.isActive && scheduleOverlapsB 1 660 780 s) = false := by
  exact ⟨rfl, rfl⟩

/-- C5 amended: with the referenced movie, theater and room present,
`createSchedule` answers the conflict outcome exactly when some schedule of
the room -- active or not -- satisfies the half-open overlap test
existing.start < new.end and existing.end > new.start, and otherwise persists
the schedule; an edge-touching schedule (existing end equal to new start, or
existing start equal to new end) never passes the overlap test. -/
theorem createSchedule_conflict_iff (db : CatalogDb)
    (movieId theaterId roomId : Nat) (startT endT : Int) (price : Rat)
    (newId : Nat)
    (hm : db.movies.contains movieId = true)
    (hth : db.theaters.contains theaterId = true)
    (hr : db.rooms.contains (roomId, theaterId) = true) :
    (createSchedule db movieId theaterId roomId startT endT price newId =
        CreateResult.conflict ↔
      ∃ s ∈ db.schedules, s.room = roomId ∧ s.startTime < endT ∧
        s.endTime > startT) ∧
    ((¬ ∃ s ∈ db.schedules, s.room = roomId ∧ s.startTime < endT ∧
        s.endTime > startT) →
      createSchedule db movieId theaterId roomId startT endT price newId =
        CreateResult.created
          { id := newId, movie := movieId, theater := theaterId,
            room := roomId, startTime := startT, endTime := endT,
            price := price, isActive := true }) ∧
    (∀ s ∈ db.schedules, s.room = roomId →
      s.endTime = startT ∨ s.startTime = endT →
      scheduleOverlapsB roomId startT endT s = false) := by
  have hexists :
      db.schedules.any (scheduleOverlapsB roomId startT endT) = true ↔
        ∃ s ∈ db.schedules, s.room = roomId ∧ s.startTime < endT ∧
          s.endTime > startT := by
    rw [List.any_eq_true]
    exact ⟨fun ⟨s, hs, ho⟩ => ⟨s, hs, (scheduleOverlapsB_iff _ _ _ s).mp ho⟩,
      fun ⟨s, hs, ho⟩ => ⟨s, hs, (scheduleOverlapsB_iff _ _ _ s).mpr ho⟩⟩
  have hm2 : movieId ∈ db.movies := by simpa using hm
  have hth2 : theaterId ∈ db.theaters := by simpa using hth
  have hr2 : (roomId, theaterId) ∈ db.rooms := by simpa using hr
  refine ⟨?_, ?_, ?_⟩
  · by_cases hany :
        db.schedules.any (scheduleOverlapsB roomId startT endT) = true
    · simp [createSchedule, hm2, hth2, hr2, hany, hexists.mp hany]
    · rw [← hexists]
      simp [createSchedule, hm2, hth2, hr2, hany]
  · intro hno
    have hany : db.schedules.any (scheduleOverlapsB roomId startT endT) = false := by
      rw [← Bool.not_eq_true]
      exact fun h => hno (hexists.mp h)
    simp [createSchedule, hm2, hth2, hr2, hany]
  · intro s _ hroom hedge
    rcases hedge with h | h <;>
      simp [scheduleOverlapsB, h]

/-- C5 witness: the amended createSchedule characterisation on a catalog with
no schedules, for the 600-720 slot of room 1. -/
theorem createSchedule_conflict_iff_witness :
    (createSchedule dbEmpty 1 1 1 600 720 90000 9 = CreateResult.conflict ↔
      ∃ s ∈ dbEmpty.schedules, s.room = 1 ∧ s.startTime < 720 ∧
        s.endTime > 600) ∧
    ((¬ ∃ s ∈ dbEmpty.schedules, s.room = 1 ∧ s.startTime < 720 ∧
        s.endTime > 600) →
      createSchedule dbEmpty 1 1 1 600 720 90000 9 =
        CreateResult.created
          { id := 9, movie := 1, theater := 1, room := 1, startTime := 600,
            endTime := 720, price := 90000, isActive := true }) ∧
    (∀ s ∈ dbEmpty.schedules, s.room = 1 → s.endTime = 600 ∨ s.startTime = 720 →
      scheduleOverlapsB 1 600 720 s = false) :=
  createSchedule_conflict_iff dbEmpty 1 1 1 600 720 90000 9 rfl rfl rfl

/-- C9 counterexample: re-sending startTime on schedule 1 makes
`updateSchedule` answer the conflict outcome because of the overlapping but
inactive schedule 2, although no distinct active schedule of the room
overlaps -- the update-time conflict query has no isActive filter either. -/
theorem updateSchedule_inactive_counterexample :
    updateSchedule [schedA, schedB] 1 patchStart0 = UpdateResult.conflict ∧
    ([schedA, schedB].any fun s =>
      s.id != 1 && s.isActive && scheduleOverlapsB 1 0 100 s) = false := by
  exact ⟨rfl, rfl⟩

/-- C9 amended: when the patched schedule exists, a patch carrying startTime,
endTime or roomId makes `updateSchedule` answer the conflict outcome exactly
when some other schedule -- active or not -- of the target room overlaps the
patched interval under the half-open test; a patch touching none of those
fields never answers the conflict outcome. -/
theorem updateSchedule_conflict_iff (schedules : List Schedule) (id : Nat)
    (p : SchedulePatch) (sch : Schedule)
    (hfind : schedules.find? (fun s => s.id == id) = some sch) :
    ((p.startTime.isSome || p.endTime.isSome || p.roomId.isSome) = true →
      (updateSchedule schedules id p = UpdateResult.conflict ↔
        ∃ s ∈ schedules, s.id ≠ id ∧ s.room = p.roomId.getD sch.room ∧
          s.startTime < p.endTime.getD sch.endTime ∧
          s.endTime > p.startTime.getD sch.startTime)) ∧
    ((p.startTime.isSome || p.endTime.isSome || p.roomId.isSome) = false →
      updateSchedule schedules id p ≠ UpdateResult.conflict) := by
  have hexists :
      (schedules.any fun s => s.id != id &&
          scheduleOverlapsB (p.roomId.getD sch.room)
            (p.startTime.getD sch.startTime) (p.endTime.getD sch.endTime) s) = true ↔
        ∃ s ∈ schedules, s.id ≠ id ∧ s.room = p.roomId.getD sch.room ∧
          s.startTime < p.endTime.getD sch.endTime ∧
          s.endTime > p.startTime.getD sch.startTime := by
    rw [List.any_eq_true]
    constructor
    · rintro ⟨s, hs, ho⟩
      rw [Bool.and_eq_true, bne_iff_ne] at ho
      exact ⟨s, hs, ho.1, (scheduleOverlapsB_iff _ _ _ s).mp ho.2⟩
    · rintro ⟨s, hs, hne, ho⟩
      refine ⟨s, hs, ?_⟩
      rw [Bool.and_eq_true, bne_iff_ne]
      exact ⟨hne, (scheduleOverlapsB_iff _ _ _ s).mpr ho⟩
  constructor
  · intro hchk
    by_cases hany :
        (schedules.any fun s => s.id != id &&
          scheduleOverlapsB (p.roomId.getD sch.room)
            (p.startTime.getD sch.startTime) (p.endTime.getD sch.endTime) s) = true
    · simp [updateSchedule, hfind, hchk, hany, hexists.mp hany]
    · rw [← hexists]
      simp [updateSchedule, hfind, hchk, hany]
  · intro hchk
    simp [updateSchedule, hfind, hchk]

/-- C9 witness: the amended updateSchedule characterisation for a price-only
patch on the lone schedule 1. -/
theorem updateSchedule_conflict_iff_witness :
    ((patchPrice.startTime.isSome || patchPrice.endTime.isSome ||
        patchPrice.roomId.isSome) = true →
      (updateSchedule [schedA] 1 patchPrice = UpdateResult.conflict ↔
        ∃ s ∈ [schedA], s.id ≠ 1 ∧ s.room = patchPrice.roomId.getD schedA.room ∧
          s.startTime < patchPrice.endTime.getD schedA.endTime ∧
          s.endTime > patchPrice.startTime.getD schedA.startTime)) ∧
    ((patchPrice.startTime.isSome || patchPrice.endTime.isSome ||
        patchPrice.roomId.isSome) = false →
      updateSchedule [schedA] 1 patchPrice ≠ UpdateResult.conflict) :=
  updateSchedule_conflict_iff [schedA] 1 patchPrice schedA rfl

/-- C7 counterexample: a pending booking whose hold lapsed at time 50 still
blocks seat A1 at time 100 -- `getAvailableSeats` never reads `expiresAt`,
while the claim says such a reservation is treated as free. -/
theorem availability_lapsed_counterexample :
    getAvailableSeats stLapsed = [(roomSeatA1, false)] ∧
    bookingLapsed.status = RStatus.pending ∧
    bookingLapsed.expiresAt = 50 ∧ (50 : Int) < 100 ∧
    claimSeatFree 100 stLapsed "A1" = true := by
  exact ⟨rfl, rfl, rfl, by decide, rfl⟩

/-- C7 amended: `getAvailableSeats` reports a seat of the room layout as
available exactly when its layout status is `available` and no reservation on
the schedule with status pending or confirmed and payment status other than
refunded contains its code; `expiresAt` plays no role, so a lapsed pending
reservation keeps blocking its seats until the TTL sweep deletes it. -/
theorem availability_characterisation (st : AvState) (seat : RoomSeat)
    (avail : Bool) (h : (seat, avail) ∈ getAvailableSeats st) :
    avail = true ↔
      (seat.status = SeatCond.available ∧
        ¬ ∃ b ∈ st.bookings,
          (b.status = RStatus.confirmed ∨ b.status = RStatus.pending) ∧
          b.payment.status ≠ PayStatus.refunded ∧
          ∃ sl ∈ b.seats, sl.code = seat.code) := by
  simp only [getAvailableSeats, List.mem_map] at h
  obtain ⟨s0, hs0, heq⟩ := h
  cases heq
  simp [List.mem_flatten, List.mem_map, List.mem_filter, bne_iff_ne]
  exact and_comm

/-- C7 witness: the availability characterisation applied to the lapsed-hold
state, where seat A1 is reported unavailable. -/
theorem availability_characterisation_witness :
    (false = true ↔
      (roomSeatA1.status = SeatCond.available ∧
        ¬ ∃ b ∈ stLapsed.bookings,
          (b.status = RStatus.confirmed ∨ b.status = RStatus.pending) ∧
          b.payment.status ≠ PayStatus.refunded ∧
          ∃ sl ∈ b.seats, sl.code = roomSeatA1.code)) :=
  availability_characterisation stLapsed roomSeatA1 false (by simp [getAvailableSeats, stLapsed, roomSeatA1, bookingLapsed, seatA1, payPending])

/-- C1 evidence: double booking is a reachable state of the ticket
collection.  Two pending tickets of different users, both holding seat A1 on
showtime 5, are inserted in sequence and both accepted -- nothing guards the
second insert, because the unique index declared in Ticket.js (lines 231-240)
uses `$ne` in its partialFilterExpression and is therefore rejected by
MongoDB at creation time.  In the resulting state two reservations that are
neither cancelled nor expired contain the same seat code on the same
schedule, violating the claimed invariant; the pair does clash under the
declared (never-created) index, showing the declaration was meant to forbid
exactly this state. -/
theorem ticket_double_booking :
    TicketReachable [ticketA1rival, ticketA1] ∧
    ([ticketA1rival, ticketA1].filter fun t => t.showtime == 5 &&
      activeStatus t && (ticketSeatCodes t).contains "A1").length = 2 ∧
    indexClash ticketA1rival ticketA1 := by
  refine ⟨?_, rfl, ?_, ?_, "A1", ?_, ?_⟩
  · exact TicketReachable.step
      (TicketReachable.step TicketReachable.init (TicketStep.insert ticketA1 []))
      (TicketStep.insert ticketA1rival [ticketA1])
  · decide
  · decide
  · simp [ticketSeatCodes, ticketA1rival, seatA1]
  · simp [ticketSeatCodes, ticketA1, seatA1]

/-- Decimal digit characters are distinct for distinct digits. -/
theorem digitChar_injOn :
    ∀ a, a < 10 → ∀ b, b < 10 → Nat.digitChar a = Nat.digitChar b → a = b := by
  decide

/-- Rendering digit lists as characters is injective. -/
theorem map_digitChar_inj :
    ∀ l1 l2 : List Nat, (∀ d ∈ l1, d < 10) → (∀ d ∈ l2, d < 10) →
      l1.map Nat.digitChar = l2.map Nat.digitChar → l1 = l2 := by
  intro l1
  induction l1 with
  | nil =>
    intro l2 _ _ h
    cases l2 with
    | nil => rfl
    | cons b t2 => simp at h
  | cons a t ih =>
    intro l2 h1 h2 h
    cases l2 with
    | nil => simp at h
    | cons b t2 =>
      simp only [List.map_cons, List.cons.injEq] at h
      have hab : a = b :=
        digitChar_injOn a (h1 a (by simp)) b (h2 b (by simp)) h.1
      rw [hab,
        ih t2 (fun d hd => h1 d (by simp [hd])) (fun d hd => h2 d (by simp [hd]))
          h.2]

/-- Decimal rendering is injective on positive numbers. -/
theorem natChars_inj {m n : Nat} (hm : 0 < m) (hn : 0 < n)
    (h : natChars m = natChars n) : m = n := by
  rw [natChars, natChars, if_neg hm.ne', if_neg hn.ne'] at h
  have hrev : (Nat.digits 10 m).reverse = (Nat.digits 10 n).reverse :=
    map_digitChar_inj _ _
      (fun d hd => Nat.digits_lt_base (by norm_num) (List.mem_reverse.mp hd))
      (fun d hd => Nat.digits_lt_base (by norm_num) (List.mem_reverse.mp hd)) h
  exact Nat.digits.injective 10 (List.reverse_injective hrev)

/-- Distinct rows below 26 get distinct row letters. -/
theorem rowLetter_injOn :
    ∀ a, a < 26 → ∀ b, b < 26 → rowLetter a = rowLetter b → a = b := by
  decide

/-- Equal seat codes have equal row letters and equal rendered columns. -/
theorem seatCode_inj_pieces {r1 c1 r2 c2 : Nat}
    (h : seatCode r1 c1 = seatCode r2 c2) :
    rowLetter r1 = rowLetter r2 ∧ natChars c1 = natChars c2 := by
  have hl : rowLetter r1 :: natChars c1 = rowLetter r2 :: natChars c2 :=
    congrArg String.data h
  exact ⟨by injection hl, by injection hl⟩

/-- The seat codes of a generated map, row by row. -/
theorem seatMap_codes (rows spr : Nat) :
    (generateSeatMap rows spr).map (fun s => s.code) =
      (List.range rows).flatMap (fun row =>
        (List.range spr).map (fun i => seatCode row (i + 1))) := by
  simp [generateSeatMap, List.map_flatMap, List.map_map, Function.comp_def]

/-- Within one row the column codes are injective. -/
theorem seatCodeRow_injective (row : Nat) :
    Function.Injective (fun i : Nat => seatCode row (i + 1)) := by
  intro i j h
  have hnc := (seatCode_inj_pieces h).2
  have := natChars_inj (Nat.succ_pos i) (Nat.succ_pos j) hnc
  omega

/-- With at most 26 rows, all seat codes of the generated map are distinct. -/
theorem seatMap_codes_nodup (rows spr : Nat) (h26 : rows ≤ 26) :
    ((generateSeatMap rows spr).map (fun s => s.code)).Nodup := by
  rw [seatMap_codes, List.nodup_flatMap]
  constructor
  · intro row _
    exact List.Nodup.map (seatCodeRow_injective row) (List.nodup_range spr)
  · apply (List.pairwise_lt_range rows).imp_of_mem
    intro a b ha hb hab
    intro x hxa hxb
    obtain ⟨i, _, rfl⟩ := List.mem_map.mp hxa
    obtain ⟨j, _, hcode⟩ := List.mem_map.mp hxb
    have hba : b = a :=
      rowLetter_injOn b (lt_of_lt_of_le (List.mem_range.mp hb) h26)
        a (lt_of_lt_of_le (List.mem_range.mp ha) h26)
        (seatCode_inj_pieces hcode).1
    omega

/-- With more than 26 rows the letter wraps: row 26 repeats row 0's codes. -/
theorem seatMap_codes_dup (rows spr : Nat) (h26 : 26 < rows) (hspr : 1 ≤ spr) :
    ¬ ((generateSeatMap rows spr).map (fun s => s.code)).Nodup := by
  rw [seatMap_codes, List.nodup_flatMap]
  rintro ⟨-, hpw⟩
  have h0 : 0 < (List.range rows).length := by simp; omega
  have h26l : 26 < (List.range rows).length := by simpa using h26
  have hdis := List.pairwise_iff_getElem.mp hpw 0 26 h0 h26l (by norm_num)
  simp only [List.getElem_range] at hdis
  have heq : seatCode 26 1 = seatCode 0 1 := by
    rw [seatCode, seatCode, show rowLetter 26 = rowLetter 0 by decide]
  have hm0 : seatCode 0 1 ∈ (List.range spr).map (fun i => seatCode 0 (i + 1)) :=
    List.mem_map.mpr ⟨0, List.mem_range.mpr (by omega), rfl⟩
  have hm26 : seatCode 0 1 ∈ (List.range spr).map (fun i => seatCode 26 (i + 1)) :=
    List.mem_map.mpr ⟨0, List.mem_range.mpr (by omega), heq⟩
  exact hdis hm0 hm26

/-- The generated map has one seat per row/column pair. -/
theorem seatMap_length (rows spr : Nat) :
    (generateSeatMap rows spr).length = rows * spr := by
  simp [generateSeatMap, List.length_flatMap, Function.comp_def,
    List.map_const', List.sum_replicate, smul_eq_mul]

/-- Seats are vip exactly on the first two rows. -/
theorem seatMap_types (rows spr : Nat) :
    ∀ s ∈ generateSeatMap rows spr,
      s.type = if s.row < 2 then SeatType.vip else SeatType.standard := by
  intro s hs
  simp only [generateSeatMap, List.mem_flatMap, List.mem_map] at hs
  obtain ⟨row, _, i, _, rfl⟩ := hs
  rfl

/-- C10: a saved room with seatsPerRow ≥ 1 gets a seat map of exactly
rows * seatsPerRow seats, vip on the first two rows and standard elsewhere,
and capacity rows * seatsPerRow; the seat codes are pairwise distinct when
rows ≤ 26, and no longer pairwise distinct when rows > 26 (the row letter
wraps modulo 26). -/
theorem room_seat_map_spec (rows spr : Nat) (hspr : 1 ≤ spr) :
    (generateSeatMap rows spr).length = rows * spr ∧
    (∀ s ∈ generateSeatMap rows spr,
      s.type = if s.row < 2 then SeatType.vip else SeatType.standard) ∧
    (∀ r : RoomDoc,
      (roomPreSave true false r).capacity = r.rows * r.seatsPerRow ∧
      (roomPreSave true false r).seats = generateSeatMap r.rows r.seatsPerRow) ∧
    (rows ≤ 26 → ((generateSeatMap rows spr).map (fun s => s.code)).Nodup) ∧
    (26 < rows → ¬ ((generateSeatMap rows spr).map (fun s => s.code)).Nodup) := by
  refine ⟨seatMap_length rows spr, seatMap_types rows spr, ?_,
    fun h => seatMap_codes_nodup rows spr h,
    fun h => seatMap_codes_dup rows spr h hspr⟩
  intro r
  exact ⟨by simp [roomPreSave], by simp [roomPreSave]⟩

/-- C10 witness: the seat-map specification at a 3-row, 2-seats-per-row
room. -/
theorem room_seat_map_spec_witness :
    1 ≤ 2 ∧
    ((generateSeatMap 3 2).length = 3 * 2 ∧
    (∀ s ∈ generateSeatMap 3 2,
      s.type = if s.row < 2 then SeatType.vip else SeatType.standard) ∧
    (∀ r : RoomDoc,
      (roomPreSave true false r).capacity = r.rows * r.seatsPerRow ∧
      (roomPreSave true false r).seats = generateSeatMap r.rows r.seatsPerRow) ∧
    (3 ≤ 26 → ((generateSeatMap 3 2).map (fun s => s.code)).Nodup) ∧
    (26 < 3 → ¬ ((generateSeatMap 3 2).map (fun s => s.code)).Nodup)) :=
  ⟨by norm_num, room_seat_map_spec 3 2 (by norm_num)⟩

end Cine
